import Mathlib

/-!
Verification of the mcpwn8n repository core: a shallow embedding of the
MCP protocol engine (src/mcp_protocol.py), the SSE connection manager and
stream teardown (src/sse_handler.py), and the resilient aggregation client
(src/api_client.py), with theorems settling the frozen claims.

Modelling conventions:
* JSON values are the inductive `Json` below; Python `None` is `Json.null`.
  A parsed message is `Option Json` (`none` = `json.JSONDecodeError`), so the
  external `json.loads` parser is abstracted by its outcome.
* JSON-RPC response strings produced through `MCPResponse.model_dump_json()`
  are modelled structurally as `MCPResp`; the empty string "" returned by
  `handle_message` for notifications is modelled as `none : Option MCPResp`.
* Wall-clock reads (`datetime.utcnow()`) are an explicit `now : String`
  parameter; elapsed-time measurements are explicit parameters as well.
* Network and awaited upstream effects are passed in as outcome values
  (`Except String Json` for an upstream call: `.error e` is the caught
  exception's `str(e)`).
-/

/-- JSON values as produced by Python's `json.loads`: numbers are modelled as
integers (no claim depends on float payloads). Object fields are an
association list in insertion order with unique keys (Python dicts). -/
inductive Json where
  | null : Json
  | bool (b : Bool) : Json
  | num (n : Int) : Json
  | str (s : String) : Json
  | arr (xs : List Json) : Json
  | obj (fields : List (String × Json)) : Json
deriving Repr

/-- Equality test on `Json`, structural. -/
def Json.beq : Json → Json → Bool
  | .null, .null => true
  | .bool a, .bool b => a == b
  | .num a, .num b => a == b
  | .str a, .str b => a == b
  | .arr (a :: as), .arr (b :: bs) => Json.beq a b && Json.beq (.arr as) (.arr bs)
  | .arr [], .arr [] => true
  | .obj ((ka, va) :: as), .obj ((kb, vb) :: bs) =>
      ka == kb && Json.beq va vb && Json.beq (.obj as) (.obj bs)
  | .obj [], .obj [] => true
  | _, _ => false

instance : BEq Json := ⟨Json.beq⟩

/-- `Json.beq` decides propositional equality. -/
theorem Json.beq_correct : ∀ a b : Json, Json.beq a b = true ↔ a = b
  | .null, .null => by simp [Json.beq]
  | .bool a, .bool b => by simp [Json.beq]
  | .num a, .num b => by simp [Json.beq]
  | .str a, .str b => by simp [Json.beq]
  | .arr [], .arr [] => by simp [Json.beq]
  | .arr (a :: as), .arr [] => by simp [Json.beq]
  | .arr [], .arr (b :: bs) => by simp [Json.beq]
  | .arr (a :: as), .arr (b :: bs) => by
      have h1 := Json.beq_correct a b
      have h2 := Json.beq_correct (.arr as) (.arr bs)
      simp only [Json.beq, Bool.and_eq_true, h1, h2]
      constructor
      · rintro ⟨rfl, ho⟩
        injection ho with hab
        rw [hab]
      · intro h
        injection h with hl
        injection hl with hh ht
        exact ⟨hh, by rw [ht]⟩
  | .obj [], .obj [] => by simp [Json.beq]
  | .obj ((ka, va) :: as), .obj [] => by simp [Json.beq]
  | .obj [], .obj ((kb, vb) :: bs) => by simp [Json.beq]
  | .obj ((ka, va) :: as), .obj ((kb, vb) :: bs) => by
      have h1 := Json.beq_correct va vb
      have h2 := Json.beq_correct (.obj as) (.obj bs)
      simp only [Json.beq, Bool.and_eq_true, h1, h2, beq_iff_eq]
      constructor
      · rintro ⟨⟨rfl, rfl⟩, ho⟩
        injection ho with hab
        rw [hab]
      · intro h
        injection h with hl
        injection hl with hh ht
        injection hh with hk hv
        exact ⟨⟨hk, hv⟩, by rw [ht]⟩
  | .null, .bool _ => by simp [Json.beq]
  | .null, .num _ => by simp [Json.beq]
  | .null, .str _ => by simp [Json.beq]
  | .null, .arr _ => by simp [Json.beq]
  | .null, .obj _ => by simp [Json.beq]
  | .bool _, .null => by simp [Json.beq]
  | .bool _, .num _ => by simp [Json.beq]
  | .bool _, .str _ => by simp [Json.beq]
  | .bool _, .arr _ => by simp [Json.beq]
  | .bool _, .obj _ => by simp [Json.beq]
  | .num _, .null => by simp [Json.beq]
  | .num _, .bool _ => by simp [Json.beq]
  | .num _, .str _ => by simp [Json.beq]
  | .num _, .arr _ => by simp [Json.beq]
  | .num _, .obj _ => by simp [Json.beq]
  | .str _, .null => by simp [Json.beq]
  | .str _, .bool _ => by simp [Json.beq]
  | .str _, .num _ => by simp [Json.beq]
  | .str _, .arr _ => by simp [Json.beq]
  | .str _, .obj _ => by simp [Json.beq]
  | .arr _, .null => by simp [Json.beq]
  | .arr _, .bool _ => by simp [Json.beq]
  | .arr _, .num _ => by simp [Json.beq]
  | .arr _, .str _ => by simp [Json.beq]
  | .arr _, .obj _ => by simp [Json.beq]
  | .obj _, .null => by simp [Json.beq]
  | .obj _, .bool _ => by simp [Json.beq]
  | .obj _, .num _ => by simp [Json.beq]
  | .obj _, .str _ => by simp [Json.beq]
  | .obj _, .arr _ => by simp [Json.beq]
termination_by a b => sizeOf a
decreasing_by all_goals (simp +arith [Prod.mk.sizeOf_spec]; try omega)

instance : DecidableEq Json := fun a b =>
  decidable_of_iff (Json.beq a b = true) (Json.beq_correct a b)

/-- Raw field lookup on a JSON object (first occurrence); `none` for a missing
key or a non-object. -/
def Json.lookupRaw : Json → String → Option Json
  | .obj fields, k => fields.lookup k
  | _, _ => none

/-- Python `message.get(k)`: `None` for a missing key and for an explicit
JSON `null` value alike. -/
def Json.pyGet (j : Json) (k : String) : Option Json :=
  match j.lookupRaw k with
  | some .null => none
  | x => x

/-- Python `message.get(k, default)`: the default only replaces a missing
key; an explicit `null` is returned as-is (Python returns `None` then). -/
def Json.pyGetD (j : Json) (k : String) (d : Json) : Json :=
  (j.lookupRaw k).getD d

/-- Python `k in message` on a dict: key presence, `null` values included. -/
def Json.hasKey (j : Json) (k : String) : Bool :=
  match j with
  | .obj fields => fields.any (fun p => p.1 == k)
  | _ => false

/-- Whether the value is a JSON object (a Python dict, i.e. has `.get`). -/
def Json.isObj : Json → Bool
  | .obj _ => true
  | _ => false

/-- Python truthiness of a JSON value (`None`, `False`, `0`, `""`, `[]`,
`{}` are falsy). -/
def Json.truthy : Json → Bool
  | .null => false
  | .bool b => b
  | .num n => n != 0
  | .str s => s ≠ ""
  | .arr xs => !xs.isEmpty
  | .obj fields => !fields.isEmpty

/-- Serialization of a JSON value (models `json.dumps`; whitespace and
string-escape details are not reproduced — no claim inspects them). -/
def Json.dump : Json → String
  | .null => "null"
  | .bool true => "true"
  | .bool false => "false"
  | .num n => toString n
  | .str s => "\"" ++ s ++ "\""
  | .arr xs => "[" ++ String.intercalate ", " (xs.attach.map fun j => Json.dump j.1) ++ "]"
  | .obj fields =>
      "\x7b" ++ String.intercalate ", "
        (fields.attach.map fun f => "\"" ++ f.1.1 ++ "\": " ++ Json.dump f.1.2) ++ "\x7d"
decreasing_by
  · have := List.sizeOf_lt_of_mem j.2
    simp +arith at this ⊢
    omega
  · have := List.sizeOf_lt_of_mem f.2
    have h2 : sizeOf f.1.2 < sizeOf f.1 := by
      obtain ⟨⟨k, v⟩, hf⟩ := f
      simp +arith
    simp +arith at this ⊢
    omega

/-- Python `x == "<literal>"` for an optional JSON value `x` (true exactly
when the value is that string). Defined structurally so that concrete
engine runs reduce by `rfl`/`decide`. -/
def isStrVal (o : Option Json) (s : String) : Bool :=
  match o with
  | some (.str t) => t == s
  | _ => false

/-- `isStrVal` decides equality with the string value. -/
theorem isStrVal_iff (o : Option Json) (s : String) :
    isStrVal o s = true ↔ o = some (Json.str s) := by
  match o with
  | none => simp [isStrVal]
  | some .null => simp [isStrVal]
  | some (.bool b) => simp [isStrVal]
  | some (.num n) => simp [isStrVal]
  | some (.str t) => simp [isStrVal]
  | some (.arr xs) => simp [isStrVal]
  | some (.obj fs) => simp [isStrVal]

/-- Python `str()` display of an optional JSON value embedded in an f-string
(`None` for an absent/null value; container display is approximated by
`Json.dump` — no claim inspects container text). -/
def pyShowOpt : Option Json → String
  | none => "None"
  | some .null => "None"
  | some (.bool true) => "True"
  | some (.bool false) => "False"
  | some (.num n) => toString n
  | some (.str s) => s
  | some j => j.dump

/-! ## Python dict primitives (association lists in insertion order) -/

/-- Python `d[k] = v`: replace the value of an existing key in place,
otherwise append the new entry. -/
def pyDictSet {α : Type} (k : String) (v : α) : List (String × α) → List (String × α)
  | [] => [(k, v)]
  | (k2, v2) :: rest =>
      if k2 == k then (k, v) :: rest else (k2, v2) :: pyDictSet k v rest

/-- Python `d.pop(k)`: drop the entry with the given key, if present. -/
def pyDictPop {α : Type} (k : String) : List (String × α) → List (String × α)
  | [] => []
  | (k2, v2) :: rest =>
      if k2 == k then rest else (k2, v2) :: pyDictPop k rest

/-! ## MCP protocol engine (src/mcp_protocol.py)

`MCPProtocolHandler.handle_message` and its private helpers. Response
strings are modelled structurally (`MCPResp`); `none` models the empty
string (no response due). A registered tool handler is a pure function
`Json → Except String Json` standing for the awaited async handler:
`.error e` models the handler raising an exception with `str(e) = e`. -/

/-- The payload of `MCPError` (code, message); the optional `data` field is
always `None` in the engine and is omitted. -/
structure MCPErr where
  code : Int
  message : String
deriving Repr, DecidableEq

/-- The payload of `MCPResponse` (jsonrpc is the constant "2.0"). -/
structure MCPResp where
  id : Json
  result : Option Json := none
  error : Option MCPErr := none
deriving Repr, DecidableEq

/-- One entry of `MCPProtocolHandler.tools`: the `ToolDefinition` data plus
the registered handler. -/
structure ToolEntry where
  name : String
  description : String
  inputSchema : Json
  handler : Json → Except String Json

/-- The mutable state of `MCPProtocolHandler` (the `initialized` flag is
`initDone`; the session id plays no role in any claim). -/
structure MCPState where
  tools : List (String × ToolEntry)
  initDone : Bool
  client_info : Option Json

/-- `MCPProtocolHandler.register_tool`. -/
def register_tool (st : MCPState) (nm description : String) (schema : Json)
    (h : Json → Except String Json) : MCPState :=
  { st with tools := pyDictSet nm ⟨nm, description, schema, h⟩ st.tools }

/-- pydantic validation of `MCPResponse.id : Union[str, int]`. -/
def idOk : Json → Bool
  | .str _ => true
  | .num _ => true
  | _ => false

/-- `MCPProtocolHandler._error_response`: `id` falls back to `0` when the
request id is `None`; constructing `MCPResponse` itself raises a validation
error when the id is neither a string nor an integer. -/
def error_response (requestId : Option Json) (code : Int) (msg : String) :
    Except String MCPResp :=
  let i := requestId.getD (Json.num 0)
  if idOk i then .ok ⟨i, none, some ⟨code, msg⟩⟩
  else .error "response id validation failed"

/-- Building the success `MCPResponse` in `_handle_request` (raises a
validation error for a missing/ill-typed id). -/
def success_response (requestId : Option Json) (res : Json) :
    Except String MCPResp :=
  match requestId with
  | some i => if idOk i then .ok ⟨i, some res, none⟩
              else .error "response id validation failed"
  | none => .error "response id validation failed"

/-- `InitializeResult(...).model_dump()` — the static payload returned by the
init method. -/
def initResultJson : Json :=
  Json.obj [("protocolVersion", .str "2024-11-05"),
    ("capabilities", .obj [("tools", .obj [("list", .bool true), ("call", .bool true)]),
      ("resources", .obj []), ("prompts", .obj []), ("logging", .obj [])]),
    ("serverInfo", .obj [("name", .str "mcp-sse-server-python"), ("version", .str "1.0.0")])]

/-- The `tools/call` success envelope (lines 232-240). -/
def toolCallOk (r : Json) : Json :=
  .obj [("content", .arr [.obj [("type", .str "text"), ("text", .str (Json.dump r))]]),
    ("isError", .bool false)]

/-- The `tools/call` handler-failure envelope (lines 246-254): a successful
response whose content reports the error with `isError=true`. -/
def toolCallFailed (e : String) : Json :=
  .obj [("content", .arr [.obj [("type", .str "text"),
      ("text", .str ("Error executing tool: " ++ e))]]),
    ("isError", .bool true)]

/-- Outcome of the method dispatch inside `_handle_request`'s try block. -/
inductive Dispatch where
  | result (r : Json)
  | noResponse
  | notFound (shown : String)
  | exn (e : String)
deriving Repr, DecidableEq

/-- `_handle_initialize`: records client metadata and sets the init flag;
the subsequent log line evaluates `params.get('clientInfo', {})`, which
raises `AttributeError` on a non-dict `params` — after the flag is set. -/
def applyInitMethod (st : MCPState) (params : Json) : MCPState × Dispatch :=
  let st' := { st with client_info := some params, initDone := true }
  if params.isObj then (st', .result initResultJson)
  else (st', .exn "AttributeError: get")

/-- `_handle_tools_list` result payload. -/
def toolsListResult (st : MCPState) : Json :=
  .obj [("tools", .arr (st.tools.map fun p =>
    .obj [("name", .str p.2.name), ("description", .str p.2.description),
      ("inputSchema", p.2.inputSchema)]))]

/-- `_handle_tools_list`: raises "Server not initialized" before anything
else when the init flag is unset. -/
def toolsListOutcome (st : MCPState) : Dispatch :=
  if st.initDone then .result (toolsListResult st)
  else .exn "Server not initialized"

/-- `_handle_tools_call`: init check, then `params.get("name")` (raises on a
non-dict params), then registry membership (an unhashable name raises
`TypeError`, a hashable non-key formats "Tool not found"), then the handler
runs under the inner try/except that produces the success/failure envelope. -/
def toolsCallOutcome (st : MCPState) (params : Json) : Dispatch :=
  if !st.initDone then .exn "Server not initialized"
  else if !params.isObj then .exn "AttributeError: get"
  else
    match params.pyGet "name" with
    | some (.str s) =>
        match st.tools.lookup s with
        | some tool =>
            match tool.handler (params.pyGetD "arguments" (.obj [])) with
            | .ok r => .result (toolCallOk r)
            | .error e => .result (toolCallFailed e)
        | none => .exn ("Tool not found: " ++ s)
    | some (.arr _) => .exn "TypeError: unhashable type"
    | some (.obj _) => .exn "TypeError: unhashable type"
    | other => .exn ("Tool not found: " ++ pyShowOpt other)

/-- The `ping` result payload. -/
def pingResult (now : String) : Json :=
  .obj [("status", .str "pong"), ("timestamp", .str now)]

/-- The method-routing if/elif chain of `_handle_request` (lines 110-126). -/
def dispatchMethod (st : MCPState) (now : String) (msg : Json) : MCPState × Dispatch :=
  let method := msg.pyGet "method"
  let params := msg.pyGetD "params" (.obj [])
  if isStrVal method "initialize" then applyInitMethod st params
  else if isStrVal method "initialized" then (st, .noResponse)
  else if isStrVal method "tools/list" then (st, toolsListOutcome st)
  else if isStrVal method "tools/call" then (st, toolsCallOutcome st params)
  else if isStrVal method "ping" then (st, .result (pingResult now))
  else (st, .notFound (pyShowOpt method))

/-- `_handle_request`: dispatch, build the success response, and catch any
exception as a -32603 error response; building the error response can itself
raise (invalid id type), which propagates to `handle_message`'s catch-all.
State mutated by the init method persists across such exceptions. -/
def handleRequest (st : MCPState) (now : String) (msg : Json) :
    MCPState × Except String (Option MCPResp) :=
  let requestId := msg.pyGet "id"
  match dispatchMethod st now msg with
  | (st', .noResponse) => (st', .ok none)
  | (st', .notFound shown) =>
      (st', (error_response requestId (-32601) ("Method not found: " ++ shown)).map some)
  | (st', .exn e) =>
      (st', (error_response requestId (-32603) ("Internal error: " ++ e)).map some)
  | (st', .result r) =>
      match success_response requestId r with
      | .ok resp => (st', .ok (some resp))
      | .error e =>
          (st', (error_response requestId (-32603) ("Internal error: " ++ e)).map some)

/-- `_handle_notification`: logs only; `notifications/cancelled` evaluates
`params.get("id")`, raising `AttributeError` when params is not a dict. -/
def handleNotif (msg : Json) : Except String Unit :=
  let method := msg.pyGet "method"
  let params := msg.pyGetD "params" (.obj [])
  if isStrVal method "notifications/cancelled" then
    if params.isObj then .ok () else .error "AttributeError: get"
  else .ok ()

/-- The catch-all of `handle_message` (`except Exception`): a -32603
response whose id is 0 (`_error_response(None, ...)`). -/
def internalErrorResp (e : String) : MCPResp :=
  ⟨Json.num 0, none, some ⟨-32603, "Internal error: " ++ e⟩⟩

/-- `MCPProtocolHandler.handle_message`. The input is the outcome of
`json.loads` (`none` = malformed JSON). Returns the new engine state and the
response (`none` models the empty string, i.e. no response due). -/
def handle_message (st : MCPState) (now : String) (input : Option Json) :
    MCPState × Option MCPResp :=
  match input with
  | none => (st, some ⟨Json.num 0, none, some ⟨-32700, "Parse error"⟩⟩)
  | some msg =>
    if msg.isObj then
      if !isStrVal (msg.pyGet "jsonrpc") "2.0" then
        match error_response (msg.pyGet "id") (-32600) "Invalid JSON-RPC version" with
        | .ok r => (st, some r)
        | .error e => (st, some (internalErrorResp e))
      else if msg.hasKey "id" then
        match handleRequest st now msg with
        | (st', .ok r) => (st', r)
        | (st', .error e) => (st', some (internalErrorResp e))
      else
        match handleNotif msg with
        | .ok _ => (st, none)
        | .error e => (st, some (internalErrorResp e))
    else (st, some (internalErrorResp "AttributeError: get"))

/-! ## SSE connection manager and stream teardown (src/sse_handler.py) -/

/-- The `SSEConfig` fields the handler reads. -/
structure SSEConfig where
  heartbeat_interval : Nat
  max_connections : Nat
deriving Repr, DecidableEq

/-- One record of `SSEConnectionManager.active_connections`. -/
structure ConnInfo where
  id : String
  connected_at : String
  last_heartbeat : String
  messages_sent : Nat
deriving Repr, DecidableEq

/-- The state of `SSEConnectionManager` (the asyncio lock serializes all
mutations, so each operation is modelled as one atomic state transition). -/
structure ConnManagerState where
  config : SSEConfig
  active_connections : List (String × ConnInfo)
deriving Repr, DecidableEq

/-- `SSEConnectionManager.add_connection`: capacity check against the
configured maximum, then insertion of a fresh record with
`connected_at = last_heartbeat = now` and `messages_sent = 0`. -/
def add_connection (st : ConnManagerState) (now connection_id : String) :
    Except String ConnManagerState :=
  if st.active_connections.length ≥ st.config.max_connections then
    .error ("Max connections reached (" ++ toString st.config.max_connections ++ ")")
  else
    .ok { st with active_connections :=
            pyDictSet connection_id ⟨connection_id, now, now, 0⟩ st.active_connections }

/-- `SSEConnectionManager.remove_connection`: pops the record if present,
no-op otherwise. -/
def remove_connection (st : ConnManagerState) (connection_id : String) :
    ConnManagerState :=
  if (st.active_connections.lookup connection_id).isSome then
    { st with active_connections := pyDictPop connection_id st.active_connections }
  else st

/-- `SSEConnectionManager.update_heartbeat`. -/
def update_heartbeat (st : ConnManagerState) (now connection_id : String) :
    ConnManagerState :=
  { st with active_connections := st.active_connections.map fun p =>
      if p.1 == connection_id then (p.1, { p.2 with last_heartbeat := now }) else p }

/-- `SSEConnectionManager.increment_messages`. -/
def increment_messages (st : ConnManagerState) (connection_id : String) :
    ConnManagerState :=
  { st with active_connections := st.active_connections.map fun p =>
      if p.1 == connection_id then (p.1, { p.2 with messages_sent := p.2.messages_sent + 1 }) else p }

/-- The observable teardown steps of `SSEHandler.handle_sse_connection`
once streaming has begun (lines 154-187): the inner `finally` cancels and
awaits the heartbeat task then the processor task; an escaping `Exception`
additionally yields a terminal error event; the outer `finally` removes the
connection record last. -/
inductive CleanupAction where
  | cancelHeartbeatTask
  | cancelProcessorTask
  | awaitHeartbeatTask
  | awaitProcessorTask
  | yieldErrorEvent (msg : String)
  | removeConn
deriving Repr, DecidableEq

/-- How the streaming phase of `handle_sse_connection` ended: the
`_stream_messages` loop finished (it breaks on an internal cancellation or
streaming error), an `Exception` escaped the streaming block, or the
consumer closed the async generator (cancellation/disconnect). -/
inductive StreamExitCause where
  | completed
  | raised (msg : String)
  | generatorClosed
deriving Repr, DecidableEq

/-- Recognizer used to count teardown steps. -/
def isRemoveConn : CleanupAction → Bool
  | .removeConn => true
  | _ => false

/-- Recognizer used to count teardown steps. -/
def isCancelOrAwait : CleanupAction → Bool
  | .cancelHeartbeatTask => true
  | .cancelProcessorTask => true
  | .awaitHeartbeatTask => true
  | .awaitProcessorTask => true
  | _ => false

/-- The teardown trace of `handle_sse_connection` for each exit cause of the
streaming phase, read off the nesting of its try/except/finally blocks:
the inner `finally` (cancel both tasks, await both, swallowing their
`CancelledError`) always runs first; `except Exception` then emits one
terminal error event for an escaping exception (a generator close is a
`BaseException` and skips it); the outer `finally` removes the record. -/
def sse_teardown_trace : StreamExitCause → List CleanupAction
  | .completed =>
      [.cancelHeartbeatTask, .cancelProcessorTask, .awaitHeartbeatTask,
        .awaitProcessorTask, .removeConn]
  | .raised e =>
      [.cancelHeartbeatTask, .cancelProcessorTask, .awaitHeartbeatTask,
        .awaitProcessorTask, .yieldErrorEvent e, .removeConn]
  | .generatorClosed =>
      [.cancelHeartbeatTask, .cancelProcessorTask, .awaitHeartbeatTask,
        .awaitProcessorTask, .removeConn]

/-! ## Resilient aggregation client (src/api_client.py)

`ABCSystemClient._request` is wrapped by a tenacity retry decorator:
`retry_if_exception_type((aiohttp.ClientError, asyncio.TimeoutError))`,
`stop_after_attempt(3)`, `wait_exponential(multiplier=1, min=1, max=10)`.
The network is an oracle `Nat → HttpResult` giving the raw result of the
n-th HTTP attempt (1-indexed). pydantic model validation is embedded
strictly (numbers are integers, no lax coercions); its exact error text is
irrelevant to every claim. -/

/-- Raw result of one HTTP attempt: a completed response (with its parsed
JSON body — `{}` when the content type is not JSON, as in line 125), an
`aiohttp.ClientError`, or an `asyncio.TimeoutError`. -/
inductive HttpResult where
  | response (status : Nat) (reason : String) (body : Json)
  | clientFailure (msg : String)
  | timeout
deriving Repr, DecidableEq

/-- Outcome of one un-retried `_request` body: success, a raised `APIError`
(status ≥ 400, message `f"Request failed: {response.reason}"`, parsed body),
or a re-raised transient error. -/
inductive ReqOutcome where
  | ok (data : Json)
  | apiFailure (status : Nat) (msg : String) (body : Json)
  | transient (msg : String)
deriving Repr, DecidableEq

/-- One execution of the `_request` body (lines 118-142). -/
def requestOnce : HttpResult → ReqOutcome
  | .response status reason body =>
      if status ≥ 400 then .apiFailure status ("Request failed: " ++ reason) body
      else .ok body
  | .clientFailure m => .transient m
  | .timeout => .transient "TimeoutError"

/-- tenacity `wait_exponential(multiplier=1, min=1, max=10)` for attempt
number `n`: `max(max(0, 1), min(1 * 2 ** n, 10))`. -/
def backoffWait (n : Nat) : Nat := max 1 (min (2 ^ n) 10)

/-- Final outcome of the retried `_request`: success, a final `APIError`
(never retried), or tenacity's `RetryError` after the attempt ceiling. -/
inductive RetryOutcome where
  | ok (data : Json)
  | apiFailure (status : Nat) (msg : String) (body : Json)
  | retriesExhausted (lastMsg : String)
deriving Repr, DecidableEq

/-- The tenacity retry loop: run attempt `attemptNo`; return other errors
at once; on a transient error stop (ceiling reached) when no budget is
left, otherwise sleep `backoffWait attemptNo` and retry. Returns the
outcome, the index of the last attempt made, and the sleeps performed.
`budget` is the number of attempts still allowed (ceiling − attemptNo + 1). -/
def retryRequestAux (oracle : Nat → HttpResult) (attemptNo : Nat) :
    Nat → RetryOutcome × Nat × List Nat
  | 0 => (.retriesExhausted "", attemptNo, [])
  | budget + 1 =>
    match requestOnce (oracle attemptNo) with
    | .ok d => (.ok d, attemptNo, [])
    | .apiFailure s m b => (.apiFailure s m b, attemptNo, [])
    | .transient m =>
      if budget = 0 then (.retriesExhausted m, attemptNo, [])
      else
        let r := retryRequestAux oracle (attemptNo + 1) budget
        (r.1, r.2.1, backoffWait attemptNo :: r.2.2)

/-- `_request` with its retry decorator (`stop_after_attempt(3)`). -/
def retryRequest (oracle : Nat → HttpResult) : RetryOutcome × Nat × List Nat :=
  retryRequestAux oracle 1 3

/-- `HealthStatus` (src/models.py): timestamps are opaque strings. -/
structure HealthStatus where
  status : String
  timestamp : String
  services : List (String × String)
  uptime_seconds : Option Int
deriving Repr, DecidableEq

/-- pydantic `str` field validation (strict; no lax coercion). -/
def expectStr (j : Json) (field : String) : Except String String :=
  match j with
  | .str s => .ok s
  | _ => .error ("validation: " ++ field)

/-- pydantic `Optional[str]` field validation from a raw lookup. -/
def optStr (v : Option Json) (field : String) : Except String (Option String) :=
  match v with
  | none => .ok none
  | some .null => .ok none
  | some (.str s) => .ok (some s)
  | some _ => .error ("validation: " ++ field)

/-- Construction of `HealthStatus` from a health response body
(lines 153-158), including pydantic validation of the `Literal` status and
the `Dict[str, str]` services map. -/
def validateHealth (now : String) (data : Json) : Except String HealthStatus := do
  let status ← match data.pyGetD "status" (.str "unknown") with
    | .str s =>
        if s = "healthy" ∨ s = "degraded" ∨ s = "unhealthy" then Except.ok s
        else .error "validation: status"
    | _ => .error "validation: status"
  let services ← match data.pyGetD "services" (.obj []) with
    | .obj fs => fs.mapM fun p =>
        match p.2 with
        | .str v => Except.ok (p.1, v)
        | _ => .error "validation: services"
    | _ => .error "validation: services"
  let uptime ← match data.lookupRaw "uptime_seconds" with
    | none => Except.ok none
    | some .null => .ok none
    | some (.num n) => .ok (some n)
    | some _ => .error "validation: uptime_seconds"
  .ok ⟨status, now, services, uptime⟩

/-- `ABCSystemClient.check_health`: any exception — a failed request or a
validation error — is caught and converted to an "unhealthy" status whose
services map carries the error text (lines 159-165). -/
def check_health (now : String) (outcome : Except String Json) : HealthStatus :=
  match outcome.bind (validateHealth now) with
  | .ok h => h
  | .error e => ⟨"unhealthy", now, [("error", e)], none⟩

/-- `UserStatus` (src/models.py); `last_login` keeps the ISO string
(`datetime.fromisoformat` is treated as accepting every modelled string —
its failures are just one more route to the same `[]` fallback). -/
structure UserStatus where
  user_id : String
  username : String
  status : String
  last_login : Option String
  session_count : Int
deriving Repr, DecidableEq

/-- One iteration of the user-building loop (lines 176-183), including the
Python truthiness test on `user.get("last_login")`. -/
def validateUser (u : Json) : Except String UserStatus := do
  if u.isObj then
    let uid ← expectStr (u.pyGetD "user_id" (.str "")) "user_id"
    let uname ← expectStr (u.pyGetD "username" (.str "")) "username"
    let status ← match u.pyGetD "status" (.str "inactive") with
      | .str s =>
          if s = "active" ∨ s = "inactive" ∨ s = "suspended" then Except.ok s
          else .error "validation: status"
      | _ => .error "validation: status"
    let lastLogin ←
      if (u.lookupRaw "last_login").elim false Json.truthy then
        match u.lookupRaw "last_login" with
        | some (.str s) => Except.ok (some s)
        | _ => .error "TypeError: fromisoformat"
      else Except.ok none
    let sc ← match u.pyGetD "session_count" (.num 0) with
      | .num n => Except.ok n
      | _ => .error "validation: session_count"
    .ok ⟨uid, uname, status, lastLogin, sc⟩
  else .error "AttributeError: get"

/-- `ABCSystemClient.get_user_status`: every exception — request failure,
iteration over a non-list `users`, or per-user validation — yields `[]`
(lines 185-187). -/
def get_user_status (outcome : Except String Json) : List UserStatus :=
  match (do
    let data ← outcome
    let users ← match data.pyGetD "users" (.arr []) with
      | .arr xs => Except.ok xs
      | _ => .error "TypeError: not iterable"
    users.mapM validateUser) with
  | .ok us => us
  | .error _ => []

/-- `ServiceInfo` (src/models.py). -/
structure ServiceInfo where
  service_id : String
  name : String
  status : String
  version : String
  endpoints : List String
deriving Repr, DecidableEq

/-- One iteration of the service-building loop (lines 198-204); note the
code's default status "unknown" is outside the pydantic `Literal`, so a
service entry without a status fails validation. -/
def validateService (svc : Json) : Except String ServiceInfo := do
  if svc.isObj then
    let sid ← expectStr (svc.pyGetD "service_id" (.str "")) "service_id"
    let nm ← expectStr (svc.pyGetD "name" (.str "")) "name"
    let status ← match svc.pyGetD "status" (.str "unknown") with
      | .str s =>
          if s = "running" ∨ s = "stopped" ∨ s = "error" then Except.ok s
          else .error "validation: status"
      | _ => .error "validation: status"
    let ver ← expectStr (svc.pyGetD "version" (.str "")) "version"
    let eps ← match svc.pyGetD "endpoints" (.arr []) with
      | .arr xs => xs.mapM fun x => expectStr x "endpoints"
      | _ => .error "validation: endpoints"
    .ok ⟨sid, nm, status, ver, eps⟩
  else .error "AttributeError: get"

/-- `ABCSystemClient.get_services`: every exception yields `[]`
(lines 207-209). -/
def get_services (outcome : Except String Json) : List ServiceInfo :=
  match (do
    let data ← outcome
    let services ← match data.pyGetD "services" (.arr []) with
      | .arr xs => Except.ok xs
      | _ => .error "TypeError: not iterable"
    services.mapM validateService) with
  | .ok ss => ss
  | .error _ => []

/-- `LogQueryParams` (src/models.py) after validation. -/
structure LogQueryParams where
  timeframe : String
  level : Option String
  service : Option String
  search : Option String
  limit : Int
deriving Repr, DecidableEq

/-- `LogQueryParams(**params)`: requires a dict, validates the `Literal`
level and the `1 ≤ limit ≤ 10000` bound; extra keys are ignored (pydantic
default config). -/
def validateLogParams (p : Json) : Except String LogQueryParams := do
  if p.isObj then
    let tf ← expectStr (p.pyGetD "timeframe" (.str "1h")) "timeframe"
    let lv ← match p.lookupRaw "level" with
      | none => Except.ok none
      | some .null => .ok none
      | some (.str s) =>
          if s = "debug" ∨ s = "info" ∨ s = "warning" ∨ s = "error" ∨ s = "critical"
          then .ok (some s) else .error "validation: level"
      | some _ => .error "validation: level"
    let sv ← optStr (p.lookupRaw "service") "service"
    let se ← optStr (p.lookupRaw "search") "search"
    let lim ← match p.lookupRaw "limit" with
      | none => Except.ok (100 : Int)
      | some (.num n) =>
          if 1 ≤ n ∧ n ≤ 10000 then .ok n else .error "validation: limit"
      | some _ => .error "validation: limit"
    .ok ⟨tf, lv, sv, se, lim⟩
  else .error "TypeError: mapping required"

/-- `LogEntry` (src/models.py); timestamps stay ISO strings. -/
structure LogEntry where
  timestamp : String
  level : String
  service : String
  message : String
  metadata : List (String × Json)
deriving Repr, DecidableEq

/-- One iteration of the log-building loop (lines 227-233); the timestamp
default is the current time's ISO string. -/
def validateLogEntry (now : String) (log : Json) : Except String LogEntry := do
  if log.isObj then
    let ts ← expectStr (log.pyGetD "timestamp" (.str now)) "timestamp"
    let lv ← expectStr (log.pyGetD "level" (.str "info")) "level"
    let sv ← expectStr (log.pyGetD "service" (.str "unknown")) "service"
    let msg ← expectStr (log.pyGetD "message" (.str "")) "message"
    let md ← match log.pyGetD "metadata" (.obj []) with
      | .obj fs => Except.ok fs
      | _ => .error "validation: metadata"
    .ok ⟨ts, lv, sv, msg, md⟩
  else .error "AttributeError: get"

/-- `ABCSystemClient.query_logs`: parameter validation happens before the
request; every exception yields `[]` (lines 236-238). -/
def query_logs (outcome : Except String Json) (params : Json) (now : String) :
    List LogEntry :=
  match (do
    let _q ← validateLogParams params
    let data ← outcome
    let logs ← match data.pyGetD "logs" (.arr []) with
      | .arr xs => Except.ok xs
      | _ => .error "TypeError: not iterable"
    logs.mapM (validateLogEntry now)) with
  | .ok ls => ls
  | .error _ => []

/-- `SystemMetrics` (src/models.py): metric numbers are modelled as
integers with the pydantic `ge`/`le` bounds. -/
structure SystemMetrics where
  cpu_usage : Int
  memory_usage : Int
  disk_usage : Int
  network_in_mbps : Int
  network_out_mbps : Int
  request_rate : Int
  error_rate : Int
  timestamp : String
deriving Repr, DecidableEq

/-- A bounded numeric field with body default 0 (lines 248-254). -/
def numField (data : Json) (k : String) (lo : Int) (hi : Option Int) :
    Except String Int :=
  match data.pyGetD k (.num 0) with
  | .num n =>
      if decide (lo ≤ n) && hi.all (fun h => decide (n ≤ h)) then .ok n
      else .error ("validation: " ++ k)
  | _ => .error ("validation: " ++ k)

/-- `ABCSystemClient.get_metrics`: every exception yields `None`
(lines 257-259). -/
def get_metrics (now : String) (outcome : Except String Json) :
    Option SystemMetrics :=
  match (do
    let data ← outcome
    let cpu ← numField data "cpu_usage" 0 (some 100)
    let mem ← numField data "memory_usage" 0 (some 100)
    let dsk ← numField data "disk_usage" 0 (some 100)
    let nin ← numField data "network_in_mbps" 0 none
    let nout ← numField data "network_out_mbps" 0 none
    let rr ← numField data "request_rate" 0 none
    let er ← numField data "error_rate" 0 (some 100)
    Except.ok (⟨cpu, mem, dsk, nin, nout, rr, er, now⟩ : SystemMetrics)) with
  | .ok m => some m
  | .error _ => none

/-- `SystemCheckResult` (src/models.py). -/
structure SystemCheckResult where
  health : Option HealthStatus
  users : Option (List UserStatus)
  services : Option (List ServiceInfo)
  logs : Option (List LogEntry)
  metrics : Option SystemMetrics
  timestamp : String
  execution_time_ms : Int
  errors : List String
deriving Repr, DecidableEq

/-- The value of one gathered task, tagged by category. -/
inductive CatValue where
  | health (h : HealthStatus)
  | users (u : List UserStatus)
  | services (s : List ServiceInfo)
  | logs (l : List LogEntry)
  | metrics (m : Option SystemMetrics)
deriving Repr, DecidableEq

/-- Upstream outcomes for the five independent calls, as seen after the
retry layer (`.error e` = the exception text the accessor catches). -/
structure Upstream where
  health : Except String Json
  users : Except String Json
  services : Except String Json
  logs : Except String Json
  metrics : Except String Json

/-- The result-parsing loop of `check_all_systems` (lines 320-327):
`Sum.inl e` is a task whose coroutine raised (the
`isinstance(result, Exception)` branch) — it contributes
`f"{name}: {e}"` to `errors` and stores `None`; `Sum.inr v` stores the
value. -/
def parseResults :
    List (String × Sum String CatValue) →
      List (String × Option CatValue) × List String
  | [] => ([], [])
  | (nm, r) :: rest =>
    let acc := parseResults rest
    match r with
    | .inl e => ((nm, none) :: acc.1, (nm ++ ": " ++ e) :: acc.2)
    | .inr v => ((nm, some v) :: acc.1, acc.2)

/-- `result_dict.get("health")` coerced into the typed field. -/
def resHealth (d : List (String × Option CatValue)) : Option HealthStatus :=
  match d.lookup "health" with
  | some (some (.health h)) => some h
  | _ => none

/-- `result_dict.get("users")` coerced into the typed field. -/
def resUsers (d : List (String × Option CatValue)) : Option (List UserStatus) :=
  match d.lookup "users" with
  | some (some (.users u)) => some u
  | _ => none

/-- `result_dict.get("services")` coerced into the typed field. -/
def resServices (d : List (String × Option CatValue)) : Option (List ServiceInfo) :=
  match d.lookup "services" with
  | some (some (.services s)) => some s
  | _ => none

/-- `result_dict.get("logs")` coerced into the typed field. -/
def resLogs (d : List (String × Option CatValue)) : Option (List LogEntry) :=
  match d.lookup "logs" with
  | some (some (.logs l)) => some l
  | _ => none

/-- `result_dict.get("metrics")`: the stored value is itself the `Option`
returned by `get_metrics`, so a requested-but-failed metrics call stores
`None` directly. -/
def resMetrics (d : List (String × Option CatValue)) : Option SystemMetrics :=
  match d.lookup "metrics" with
  | some (some (.metrics m)) => m
  | _ => none

/-- Python `log_params or {"timeframe": "1h", "limit": 100}`. -/
def pyOrJson (v : Option Json) (d : Json) : Json :=
  match v with
  | some j => if j.truthy then j else d
  | none => d

/-- `ABCSystemClient.check_all_systems` (lines 263-342). The task list is
built in the fixed order health, users, services, logs, metrics from the
inclusion flags; `asyncio.gather(..., return_exceptions=True)` returns, per
task, the coroutine's value or the exception it raised — each of the five
accessors catches every exception internally (theorem c10), so each task is
embedded as `Sum.inr` of its value, while the exception branch of the
gather loop is kept as the `Sum.inl` case of `parseResults`. `execMs` is
the measured wall-clock fan-out time. -/
def check_all_systems (now : String) (execMs : Int) (up : Upstream)
    (include_health include_users include_services include_logs include_metrics : Bool)
    (log_params : Option Json) : SystemCheckResult :=
  let tasks : List (String × Sum String CatValue) :=
    (if include_health then
        [("health", Sum.inr (CatValue.health (check_health now up.health)))] else []) ++
    (if include_users then
        [("users", Sum.inr (CatValue.users (get_user_status up.users)))] else []) ++
    (if include_services then
        [("services", Sum.inr (CatValue.services (get_services up.services)))] else []) ++
    (if include_logs then
        [("logs", Sum.inr (CatValue.logs (query_logs up.logs
          (pyOrJson log_params (Json.obj [("timeframe", .str "1h"), ("limit", .num 100)]))
          now)))] else []) ++
    (if include_metrics then
        [("metrics", Sum.inr (CatValue.metrics (get_metrics now up.metrics)))] else [])
  let parsed := parseResults tasks
  { health := resHealth parsed.1, users := resUsers parsed.1,
    services := resServices parsed.1, logs := resLogs parsed.1,
    metrics := resMetrics parsed.1, timestamp := now,
    execution_time_ms := execMs, errors := parsed.2 }

/-! ## Helper lemmas and fixtures -/

instance : LawfulBEq Json where
  eq_of_beq h := (Json.beq_correct _ _).mp h
  rfl := (Json.beq_correct _ _).mpr rfl

/-- Setting a key makes it retrievable with exactly the stored record. -/
theorem lookup_pyDictSet {α : Type} (k : String) (v : α) :
    ∀ l : List (String × α), (pyDictSet k v l).lookup k = some v := by
  intro l
  induction l with
  | nil => simp [pyDictSet]
  | cons p rest ih =>
      obtain ⟨k2, v2⟩ := p
      by_cases h : k2 = k
      · simp [pyDictSet, h]
      · have hne : (k == k2) = false := by simp [Ne.symm h]
        simp [pyDictSet, h, List.lookup, hne, ih]

/-- Popping an absent key is the identity. -/
theorem pyDictPop_of_absent {α : Type} (k : String) :
    ∀ l : List (String × α), l.lookup k = none → pyDictPop k l = l := by
  intro l
  induction l with
  | nil => simp [pyDictPop]
  | cons p rest ih =>
      obtain ⟨k2, v2⟩ := p
      intro h
      by_cases hk : k2 = k
      · subst hk; simp [List.lookup] at h
      · have hne : (k == k2) = false := by simp [Ne.symm hk]
        simp only [List.lookup, hne] at h
        simp [pyDictPop, hk, ih h]

/-- Popping a present key shrinks the table by exactly one entry. -/
theorem length_pyDictPop {α : Type} (k : String) :
    ∀ l : List (String × α), (l.lookup k).isSome →
      (pyDictPop k l).length + 1 = l.length := by
  intro l
  induction l with
  | nil => simp [List.lookup]
  | cons p rest ih =>
      obtain ⟨k2, v2⟩ := p
      intro h
      by_cases hk : k2 = k
      · simp [pyDictPop, hk]
      · have hne : (k == k2) = false := by simp [Ne.symm hk]
        simp only [List.lookup, hne] at h
        simp [pyDictPop, hk, ih h]

/-- C10: every per-category accessor of the aggregation client is total (a
Lean function into its plain result type) and converts a failed upstream
call into its fallback: `check_health` returns an "unhealthy" status whose
services map carries the error text; `get_user_status`, `get_services`
and `query_logs` return `[]`; `get_metrics` returns `None`. -/
theorem c10_accessor_totality (now e : String) (params : Json) :
    check_health now (.error e) = ⟨"unhealthy", now, [("error", e)], none⟩ ∧
    get_user_status (.error e) = [] ∧
    get_services (.error e) = [] ∧
    query_logs (.error e) params now = [] ∧
    get_metrics now (.error e) = none := by
  refine ⟨rfl, rfl, rfl, ?_, rfl⟩
  unfold query_logs
  cases validateLogParams params <;> rfl

/-- C8: on every exit cause of the streaming phase, the teardown trace of
`handle_sse_connection` cancels the heartbeat task and the processor task
and awaits both exactly once, before anything else; the connection record
is removed exactly once, and it is the final action. -/
theorem c8_cleanup_order (cause : StreamExitCause) :
    (sse_teardown_trace cause).take 4 =
      [.cancelHeartbeatTask, .cancelProcessorTask, .awaitHeartbeatTask, .awaitProcessorTask] ∧
    (sse_teardown_trace cause).getLast? = some .removeConn ∧
    (sse_teardown_trace cause).countP isRemoveConn = 1 ∧
    (sse_teardown_trace cause).countP isCancelOrAwait = 4 := by
  cases cause <;>
    simp [sse_teardown_trace, isRemoveConn, isCancelOrAwait, List.countP_cons]

/-- Attempt-count bound for the retry loop: with `fuel ≥ 1` attempts of
budget starting at `attemptNo`, the last attempt made is at most
`attemptNo + fuel - 1`. -/
theorem retryAux_attempt_le (oracle : Nat → HttpResult) :
    ∀ fuel attemptNo, 1 ≤ fuel →
      (retryRequestAux oracle attemptNo fuel).2.1 ≤ attemptNo + fuel - 1 := by
  intro fuel
  induction fuel with
  | zero => intro a h; omega
  | succ f ihf =>
      intro a _
      unfold retryRequestAux
      cases h : requestOnce (oracle a) with
      | ok d => simp
      | apiFailure s m b => simp
      | transient m =>
          simp only
          by_cases hf : f = 0
          · simp [hf]
          · simp [hf]
            have := ihf (a + 1) (by omega)
            omega

/-- C6: the retried `_request` makes at most 3 attempts; the backoff between
attempts grows exponentially; a call failing transiently twice then
succeeding on the third attempt returns the success after exactly 3 attempts
(no fourth) with the two exponential sleeps; a call answered with an HTTP
error status (4xx/5xx) makes exactly one attempt and the typed APIError
carries the status code, message and parsed body. -/
theorem c6_retry_policy (oracle : Nat → HttpResult) :
    (retryRequest oracle).2.1 ≤ 3 ∧
    backoffWait 1 < backoffWait 2 ∧ backoffWait 2 < backoffWait 3 ∧
    (∀ m1 m2 d, requestOnce (oracle 1) = .transient m1 →
      requestOnce (oracle 2) = .transient m2 →
      requestOnce (oracle 3) = .ok d →
      retryRequest oracle = (.ok d, 3, [backoffWait 1, backoffWait 2])) ∧
    (∀ s r b, oracle 1 = .response s r b → s ≥ 400 →
      retryRequest oracle = (.apiFailure s ("Request failed: " ++ r) b, 1, [])) := by
  refine ⟨?_, by decide, by decide, ?_, ?_⟩
  · have := retryAux_attempt_le oracle 3 1 (by omega)
    simpa [retryRequest] using this
  · intro m1 m2 d h1 h2 h3
    simp [retryRequest, retryRequestAux, h1, h2, h3]
  · intro s r b h1 hs
    have hro : requestOnce (oracle 1) = .apiFailure s ("Request failed: " ++ r) b := by
      simp [requestOnce, h1, hs]
    simp [retryRequest, retryRequestAux, hro]

/-- A transiently-failing-then-healthy upstream (first two attempts reset,
third succeeds). -/
def oracleFlaky : Nat → HttpResult := fun n =>
  if n ≤ 2 then .clientFailure "connection reset" else .response 200 "OK" (Json.obj [])

/-- An upstream that always answers HTTP 404. -/
def oracle404 : Nat → HttpResult := fun _ =>
  .response 404 "Not Found" (Json.obj [("detail", .str "missing")])

/-- Witness for C6 at concrete oracles. -/
theorem c6_retry_policy_witness :
    (requestOnce (oracleFlaky 1) = .transient "connection reset" ∧
     requestOnce (oracleFlaky 2) = .transient "connection reset" ∧
     requestOnce (oracleFlaky 3) = .ok (Json.obj []) ∧
     retryRequest oracleFlaky = (.ok (Json.obj []), 3, [backoffWait 1, backoffWait 2])) ∧
    (oracle404 1 = .response 404 "Not Found" (Json.obj [("detail", Json.str "missing")]) ∧
     404 ≥ 400 ∧
     retryRequest oracle404 =
       (.apiFailure 404 ("Request failed: " ++ "Not Found")
         (Json.obj [("detail", Json.str "missing")]), 1, [])) :=
  ⟨⟨rfl, rfl, rfl, (c6_retry_policy oracleFlaky).2.2.2.1 _ _ _ rfl rfl rfl⟩,
   ⟨rfl, by omega, (c6_retry_policy oracle404).2.2.2.2 404 "Not Found" _ rfl (by omega)⟩⟩

/-- C7: `add` fails with the capacity error exactly when the table is at or
above the configured maximum, and otherwise inserts a record with
created-at = heartbeat = now and a zero message counter; `remove` of an
absent id is a no-op; after removing a present id from a full table, a
subsequent `add` succeeds again. -/
theorem c7_session_admission (st : ConnManagerState) (now cid cid2 : String) :
    (st.active_connections.length ≥ st.config.max_connections →
      add_connection st now cid =
        .error ("Max connections reached (" ++ toString st.config.max_connections ++ ")")) ∧
    (st.active_connections.length < st.config.max_connections →
      ∃ st2, add_connection st now cid = .ok st2 ∧
        st2.active_connections.lookup cid = some ⟨cid, now, now, 0⟩) ∧
    ((st.active_connections.lookup cid2).isSome = false →
      remove_connection st cid2 = st) ∧
    (st.active_connections.length = st.config.max_connections →
      (st.active_connections.lookup cid).isSome = true →
      ∃ st3, add_connection (remove_connection st cid) now cid2 = .ok st3) := by
  refine ⟨?_, ?_, ?_, ?_⟩
  · intro h
    unfold add_connection
    rw [if_pos h]
  · intro h
    unfold add_connection
    rw [if_neg (by omega)]
    exact ⟨_, rfl, lookup_pyDictSet cid _ st.active_connections⟩
  · intro h
    unfold remove_connection
    rw [if_neg (by simp [h])]
  · intro hlen hsome
    have hpop := length_pyDictPop cid st.active_connections hsome
    unfold remove_connection add_connection
    rw [if_pos hsome, if_neg (by simp; omega)]
    exact ⟨_, rfl⟩

/-- A one-slot table holding connection "a". -/
def connFull : ConnManagerState := ⟨⟨30, 1⟩, [("a", ⟨"a", "t0", "t0", 0⟩)]⟩

/-- A one-slot empty table. -/
def connEmpty : ConnManagerState := ⟨⟨30, 1⟩, []⟩

/-- Witness for C7 at concrete tables. -/
theorem c7_session_admission_witness :
    (connFull.active_connections.length ≥ connFull.config.max_connections ∧
      add_connection connFull "t1" "b" = .error "Max connections reached (1)") ∧
    (connEmpty.active_connections.length < connEmpty.config.max_connections ∧
      ∃ st2, add_connection connEmpty "t1" "c" = .ok st2 ∧
        st2.active_connections.lookup "c" = some ⟨"c", "t1", "t1", 0⟩) ∧
    (remove_connection connFull "zzz" = connFull) ∧
    (∃ st3, add_connection (remove_connection connFull "a") "t2" "d" = .ok st3) :=
  ⟨⟨by decide, (c7_session_admission connFull "t1" "b" "zzz").1 (by decide)⟩,
   ⟨by decide, (c7_session_admission connEmpty "t1" "c" "zzz").2.1 (by decide)⟩,
   (c7_session_admission connFull "t1" "b" "zzz").2.2.1 (by decide),
   (c7_session_admission connFull "t2" "a" "d").2.2.2 (by decide) (by decide)⟩

/-- Field-level characterization of `check_all_systems` for every plan:
`errors` is always empty (no accessor lets an exception reach the gather
loop), each requested field holds the accessor's value, and each
non-requested field is absent. -/
theorem check_all_fields (now : String) (execMs : Int) (up : Upstream)
    (ih iu isv il im : Bool) (lp : Option Json) :
    (check_all_systems now execMs up ih iu isv il im lp).errors = [] ∧
    (check_all_systems now execMs up ih iu isv il im lp).health =
      (if ih then some (check_health now up.health) else none) ∧
    (check_all_systems now execMs up ih iu isv il im lp).users =
      (if iu then some (get_user_status up.users) else none) ∧
    (check_all_systems now execMs up ih iu isv il im lp).services =
      (if isv then some (get_services up.services) else none) ∧
    (check_all_systems now execMs up ih iu isv il im lp).logs =
      (if il then some (query_logs up.logs
        (pyOrJson lp (Json.obj [("timeframe", .str "1h"), ("limit", .num 100)])) now)
       else none) ∧
    (check_all_systems now execMs up ih iu isv il im lp).metrics =
      (if im then get_metrics now up.metrics else none) := by
  cases ih <;> cases iu <;> cases isv <;> cases il <;> cases im <;>
    simp [check_all_systems, parseResults, resHealth, resUsers, resServices,
      resLogs, resMetrics, List.lookup]

/-- C1 (amended): for every aggregation plan, `errors` is empty — each
per-category accessor converts failure to a fallback value instead of
raising, so the exception branch of the gather loop never fires; categories
not requested are absent (`None`); requested health/users/services/logs are
always populated (with the fallback on failure); requested metrics is the
accessor's optional result (absent exactly when the metrics call failed);
in particular a failing health call yields a populated "unhealthy" status
carrying the error text, not an absent field and not an error entry. -/
theorem c1_aggregation_shape (now : String) (execMs : Int) (up : Upstream)
    (ih iu isv il im : Bool) (lp : Option Json) :
    (check_all_systems now execMs up ih iu isv il im lp).errors = [] ∧
    (check_all_systems now execMs up ih iu isv il im lp).health =
      (if ih then some (check_health now up.health) else none) ∧
    (check_all_systems now execMs up ih iu isv il im lp).users =
      (if iu then some (get_user_status up.users) else none) ∧
    (check_all_systems now execMs up ih iu isv il im lp).services =
      (if isv then some (get_services up.services) else none) ∧
    (check_all_systems now execMs up ih iu isv il im lp).logs =
      (if il then some (query_logs up.logs
        (pyOrJson lp (Json.obj [("timeframe", .str "1h"), ("limit", .num 100)])) now)
       else none) ∧
    (check_all_systems now execMs up ih iu isv il im lp).metrics =
      (if im then get_metrics now up.metrics else none) ∧
    (∀ e, up.health = .error e → ih = true →
      (check_all_systems now execMs up ih iu isv il im lp).health =
        some ⟨"unhealthy", now, [("error", e)], none⟩) := by
  obtain ⟨h1, h2, h3, h4, h5, h6⟩ := check_all_fields now execMs up ih iu isv il im lp
  refine ⟨h1, h2, h3, h4, h5, h6, ?_⟩
  intro e he hih
  rw [h2, hih, if_pos rfl, he]
  rfl

/-- Upstream where only the health call fails; the other four succeed with
minimal valid bodies. -/
def upHealthDown : Upstream :=
  ⟨.error "API Error 500: Request failed: Internal Server Error",
   .ok (Json.obj []), .ok (Json.obj []), .ok (Json.obj []), .ok (Json.obj [])⟩

/-- C1 counterexample: a plan requesting all five categories where exactly
the health upstream call fails yields an empty `errors` list (the claim
demands exactly one entry) and a populated "unhealthy" health field (the
claim demands an absent field). -/
theorem c1_counterexample :
    (check_all_systems "T" 5 upHealthDown true true true true true none).errors = [] ∧
    (check_all_systems "T" 5 upHealthDown true true true true true none).health =
      some ⟨"unhealthy", "T",
        [("error", "API Error 500: Request failed: Internal Server Error")], none⟩ ∧
    (check_all_systems "T" 5 upHealthDown true true true true true none).users = some [] ∧
    (check_all_systems "T" 5 upHealthDown true true true true true none).services = some [] ∧
    (check_all_systems "T" 5 upHealthDown true true true true true none).logs = some [] ∧
    (check_all_systems "T" 5 upHealthDown true true true true true none).metrics =
      some ⟨0, 0, 0, 0, 0, 0, 0, "T"⟩ :=
  ⟨rfl, rfl, rfl, rfl, rfl, rfl⟩

/-- Witness for C1's amended implication at a concrete failing upstream. -/
theorem c1_aggregation_shape_witness :
    upHealthDown.health = .error "API Error 500: Request failed: Internal Server Error" ∧
    (check_all_systems "T" 5 upHealthDown true true true true true none).health =
      some ⟨"unhealthy", "T",
        [("error", "API Error 500: Request failed: Internal Server Error")], none⟩ :=
  ⟨rfl, (c1_aggregation_shape "T" 5 upHealthDown true true true true true none).2.2.2.2.2.2
    "API Error 500: Request failed: Internal Server Error" rfl rfl⟩

/-! ## Message fixtures for the protocol claims -/

/-- String concatenation is associative (used to fold error-text literals). -/
theorem strAppendAssoc : ∀ a b c : String, a ++ (b ++ c) = (a ++ b) ++ c
  | ⟨a⟩, ⟨b⟩, ⟨c⟩ => congrArg String.mk (List.append_assoc a b c).symm

/-- A JSON-RPC request with the given id and method (no params). -/
def requestMsg (i : Json) (m : String) : Json :=
  Json.obj [("jsonrpc", .str "2.0"), ("id", i), ("method", .str m)]

/-- A `tools/call` request naming a tool with an arguments object. -/
def toolsCallMsg (i : Json) (nm : String) (args : Json) : Json :=
  Json.obj [("jsonrpc", .str "2.0"), ("id", i), ("method", .str "tools/call"),
    ("params", .obj [("name", .str nm), ("arguments", args)])]

/-- A `tools/call` request naming a tool without arguments. -/
def toolsCallMsgNoArgs (i : Json) (nm : String) : Json :=
  Json.obj [("jsonrpc", .str "2.0"), ("id", i), ("method", .str "tools/call"),
    ("params", .obj [("name", .str nm)])]

/-- An engine that has completed its init handshake and has no tools. -/
def mcpStInitEmpty : MCPState := ⟨[], true, none⟩

/-- A fresh engine (no tools, init flag unset). -/
def mcpStFresh : MCPState := ⟨[], false, none⟩

/-- C2 (amended): on an engine whose init handshake is done, a `tools/call`
request naming an unregistered tool never escapes the engine as an
exception; it produces a protocol-level JSON-RPC error response with code
-32603 whose message names the missing tool ("Internal error: Tool not
found: <name>") — not a successful-envelope content block with
`isError=true`. -/
theorem c2_unknown_tool (st : MCPState) (now nm : String) (i : Json)
    (hinit : st.initDone = true)
    (hmiss : st.tools.lookup nm = none)
    (hid : idOk i = true) :
    handle_message st now (some (toolsCallMsgNoArgs i nm)) =
      (st, some ⟨i, none, some ⟨-32603, "Internal error: Tool not found: " ++ nm⟩⟩) := by
  cases i
  case null => exact absurd hid (by simp [idOk])
  case bool b => exact absurd hid (by simp [idOk])
  case arr xs => exact absurd hid (by simp [idOk])
  case obj fs => exact absurd hid (by simp [idOk])
  all_goals
    simp [handle_message, toolsCallMsgNoArgs, dispatchMethod, handleRequest,
      toolsCallOutcome, isStrVal, Json.pyGet, Json.pyGetD, Json.lookupRaw,
      Json.hasKey, Json.isObj, List.lookup, hinit, hmiss, error_response,
      success_response, idOk, Except.map, internalErrorResp, strAppendAssoc]

/-- C2 counterexample: on an initialized engine with no registered tools, a
`tools/call` naming "ghost" produces a protocol-level JSON-RPC error
response — code -32603 and no result payload at all, hence no content block
and no `isError=true` — because `_handle_tools_call` raises before its
inner try/except and `_handle_request` converts the exception. -/
theorem c2_counterexample :
    (handle_message mcpStInitEmpty "T" (some (toolsCallMsgNoArgs (Json.num 1) "ghost"))).2 =
      some ⟨Json.num 1, none, some ⟨-32603, "Internal error: Tool not found: ghost"⟩⟩ := rfl

/-- Witness for C2 at a concrete engine and tool name. -/
theorem c2_unknown_tool_witness :
    mcpStInitEmpty.initDone = true ∧
    mcpStInitEmpty.tools.lookup "missing" = none ∧
    idOk (Json.num 2) = true ∧
    handle_message mcpStInitEmpty "T" (some (toolsCallMsgNoArgs (Json.num 2) "missing")) =
      (mcpStInitEmpty,
        some ⟨Json.num 2, none, some ⟨-32603, "Internal error: Tool not found: missing"⟩⟩) :=
  ⟨rfl, rfl, rfl, c2_unknown_tool mcpStInitEmpty "T" "missing" (Json.num 2) rfl rfl rfl⟩

/-- C4: when a registered tool's handler raises, the exception is caught at
the `tools/call` boundary: the engine returns a successful-envelope
response (no protocol-level error) whose result is a text content block
carrying "Error executing tool: <message>" with `isError=true`. -/
theorem c4_tool_failure_envelope (st : MCPState) (now nm : String) (tool : ToolEntry)
    (args : Json) (e : String) (i : Json)
    (hinit : st.initDone = true)
    (hreg : st.tools.lookup nm = some tool)
    (hfail : tool.handler args = .error e)
    (hid : idOk i = true) :
    handle_message st now (some (toolsCallMsg i nm args)) =
      (st, some ⟨i, some (toolCallFailed e), none⟩) := by
  cases i
  case null => exact absurd hid (by simp [idOk])
  case bool b => exact absurd hid (by simp [idOk])
  case arr xs => exact absurd hid (by simp [idOk])
  case obj fs => exact absurd hid (by simp [idOk])
  all_goals
    simp [handle_message, toolsCallMsg, dispatchMethod, handleRequest,
      toolsCallOutcome, isStrVal, Json.pyGet, Json.pyGetD, Json.lookupRaw,
      Json.hasKey, Json.isObj, List.lookup, hinit, hreg, hfail, error_response,
      success_response, idOk, Except.map]

/-- A tool whose handler always raises. -/
def failingTool : ToolEntry := ⟨"boom_tool", "always fails", Json.obj [], fun _ => .error "boom"⟩

/-- An initialized engine with the failing tool registered. -/
def mcpStFailingTool : MCPState := ⟨[("boom_tool", failingTool)], true, none⟩

/-- Witness for C4 at a concrete engine and failing handler. -/
theorem c4_tool_failure_envelope_witness :
    mcpStFailingTool.initDone = true ∧
    mcpStFailingTool.tools.lookup "boom_tool" = some failingTool ∧
    failingTool.handler (Json.obj []) = .error "boom" ∧
    idOk (Json.num 3) = true ∧
    handle_message mcpStFailingTool "T"
        (some (toolsCallMsg (Json.num 3) "boom_tool" (Json.obj []))) =
      (mcpStFailingTool, some ⟨Json.num 3, some (toolCallFailed "boom"), none⟩) :=
  ⟨rfl, rfl, rfl, rfl,
    c4_tool_failure_envelope mcpStFailingTool "T" "boom_tool" failingTool
      (Json.obj []) "boom" (Json.num 3) rfl rfl rfl rfl⟩

/-- C9 (amended): malformed JSON yields the -32700 "Parse error" response
and leaves the engine state unchanged; a well-formed JSON object whose
jsonrpc tag is missing or not "2.0" — with a response-encodable id — yields
the -32600 "Invalid JSON-RPC version" response, also without a state
change. (Non-object JSON values instead hit the catch-all and answer
-32603: see the counterexample.) -/
theorem c9_parse_and_version_errors (st : MCPState) (now : String) (msg : Json)
    (hobj : msg.isObj = true)
    (hver : msg.pyGet "jsonrpc" ≠ some (Json.str "2.0"))
    (hid : idOk ((msg.pyGet "id").getD (Json.num 0)) = true) :
    handle_message st now none =
      (st, some ⟨Json.num 0, none, some ⟨-32700, "Parse error"⟩⟩) ∧
    handle_message st now (some msg) =
      (st, some ⟨(msg.pyGet "id").getD (Json.num 0), none,
        some ⟨-32600, "Invalid JSON-RPC version"⟩⟩) := by
  refine ⟨rfl, ?_⟩
  have hv : isStrVal (msg.pyGet "jsonrpc") "2.0" = false :=
    Bool.eq_false_iff.mpr fun h => hver ((isStrVal_iff _ _).mp h)
  simp [handle_message, hobj, hv, error_response, hid]

/-- C9 counterexample: the JSON value `[]` is well-formed JSON without a
jsonrpc tag, but the engine answers -32603 (the `message.get` AttributeError
lands in the catch-all), not the claimed -32600. -/
theorem c9_counterexample :
    ((handle_message mcpStFresh "T" (some (Json.arr []))).2.bind MCPResp.error).map
        MCPErr.code = some (-32603) := rfl

/-- A well-formed object message with the wrong protocol version. -/
def badVersionMsg : Json := Json.obj [("jsonrpc", .str "1.0"), ("id", .num 7)]

/-- Witness for C9 at a concrete wrong-version message. -/
theorem c9_parse_and_version_errors_witness :
    badVersionMsg.isObj = true ∧
    badVersionMsg.pyGet "jsonrpc" ≠ some (Json.str "2.0") ∧
    idOk ((badVersionMsg.pyGet "id").getD (Json.num 0)) = true ∧
    (handle_message mcpStFresh "T" none =
      (mcpStFresh, some ⟨Json.num 0, none, some ⟨-32700, "Parse error"⟩⟩) ∧
     handle_message mcpStFresh "T" (some badVersionMsg) =
      (mcpStFresh, some ⟨(badVersionMsg.pyGet "id").getD (Json.num 0), none,
        some ⟨-32600, "Invalid JSON-RPC version"⟩⟩)) :=
  ⟨rfl, by simp [badVersionMsg, Json.pyGet, Json.lookupRaw, List.lookup], rfl,
    c9_parse_and_version_errors mcpStFresh "T" badVersionMsg rfl
      (by simp [badVersionMsg, Json.pyGet, Json.lookupRaw, List.lookup]) rfl⟩

/-- An uninitialized engine answers `tools/list` with the -32603 response. -/
theorem hmAux_toolsList_uninit (st : MCPState) (now : String) (i : Json)
    (h0 : st.initDone = false) (hid : idOk i = true) :
    (handle_message st now (some (requestMsg i "tools/list"))).2 =
      some ⟨i, none, some ⟨-32603, "Internal error: Server not initialized"⟩⟩ := by
  cases i
  case null => exact absurd hid (by simp [idOk])
  case bool b => exact absurd hid (by simp [idOk])
  case arr xs => exact absurd hid (by simp [idOk])
  case obj fs => exact absurd hid (by simp [idOk])
  all_goals
    simp [handle_message, requestMsg, dispatchMethod, handleRequest,
      toolsListOutcome, isStrVal, Json.pyGet, Json.pyGetD, Json.lookupRaw,
      Json.hasKey, Json.isObj, List.lookup, h0, error_response,
      success_response, idOk, Except.map]

/-- An uninitialized engine answers any `tools/call` with the -32603
response (the init check precedes the name lookup). -/
theorem hmAux_toolsCall_uninit (st : MCPState) (now nm : String) (i : Json)
    (h0 : st.initDone = false) (hid : idOk i = true) :
    (handle_message st now (some (toolsCallMsgNoArgs i nm))).2 =
      some ⟨i, none, some ⟨-32603, "Internal error: Server not initialized"⟩⟩ := by
  cases i
  case null => exact absurd hid (by simp [idOk])
  case bool b => exact absurd hid (by simp [idOk])
  case arr xs => exact absurd hid (by simp [idOk])
  case obj fs => exact absurd hid (by simp [idOk])
  all_goals
    simp [handle_message, toolsCallMsgNoArgs, dispatchMethod, handleRequest,
      toolsCallOutcome, isStrVal, Json.pyGet, Json.pyGetD, Json.lookupRaw,
      Json.hasKey, Json.isObj, List.lookup, h0, error_response,
      success_response, idOk, Except.map]

/-- `ping` answers a pong with the current timestamp on any engine state. -/
theorem hmAux_ping (st : MCPState) (now : String) (i : Json) (hid : idOk i = true) :
    (handle_message st now (some (requestMsg i "ping"))).2 =
      some ⟨i, some (pingResult now), none⟩ := by
  cases i
  case null => exact absurd hid (by simp [idOk])
  case bool b => exact absurd hid (by simp [idOk])
  case arr xs => exact absurd hid (by simp [idOk])
  case obj fs => exact absurd hid (by simp [idOk])
  all_goals
    simp [handle_message, requestMsg, dispatchMethod, handleRequest, isStrVal,
      Json.pyGet, Json.pyGetD, Json.lookupRaw, Json.hasKey, Json.isObj,
      List.lookup, error_response, success_response, idOk, Except.map]

/-- Evaluation of the init handshake: flag set, client metadata recorded,
static init payload returned. -/
theorem hmAux_init (st : MCPState) (now : String) (i : Json) (hid : idOk i = true) :
    handle_message st now (some (requestMsg i "initialize")) =
      ({ st with initDone := true, client_info := some (Json.obj []) },
       some ⟨i, some initResultJson, none⟩) := by
  cases i
  case null => exact absurd hid (by simp [idOk])
  case bool b => exact absurd hid (by simp [idOk])
  case arr xs => exact absurd hid (by simp [idOk])
  case obj fs => exact absurd hid (by simp [idOk])
  all_goals
    simp [handle_message, requestMsg, dispatchMethod, applyInitMethod,
      handleRequest, isStrVal, Json.pyGet, Json.pyGetD, Json.lookupRaw,
      Json.hasKey, Json.isObj, List.lookup, error_response, success_response,
      idOk, Except.map]

/-- An initialized engine answers `tools/list` with the registry dump. -/
theorem hmAux_toolsList_init (st : MCPState) (now : String) (i : Json)
    (h1 : st.initDone = true) (hid : idOk i = true) :
    (handle_message st now (some (requestMsg i "tools/list"))).2 =
      some ⟨i, some (toolsListResult st), none⟩ := by
  cases i
  case null => exact absurd hid (by simp [idOk])
  case bool b => exact absurd hid (by simp [idOk])
  case arr xs => exact absurd hid (by simp [idOk])
  case obj fs => exact absurd hid (by simp [idOk])
  all_goals
    simp [handle_message, requestMsg, dispatchMethod, handleRequest,
      toolsListOutcome, isStrVal, Json.pyGet, Json.pyGetD, Json.lookupRaw,
      Json.hasKey, Json.isObj, List.lookup, h1, error_response,
      success_response, idOk, Except.map]

/-- An initialized engine answers `tools/call` for a registered tool with a
successful envelope (the handler's success or failure only selects the
content of the envelope, never a protocol error). -/
theorem hmAux_toolsCall_registered (st : MCPState) (now nm : String) (i : Json)
    (tool : ToolEntry) (args : Json)
    (h1 : st.initDone = true) (hreg : st.tools.lookup nm = some tool)
    (hid : idOk i = true) :
    (handle_message st now (some (toolsCallMsg i nm args))).2 =
      some ⟨i, some (match tool.handler args with
                     | .ok r => toolCallOk r
                     | .error e => toolCallFailed e), none⟩ := by
  cases i
  case null => exact absurd hid (by simp [idOk])
  case bool b => exact absurd hid (by simp [idOk])
  case arr xs => exact absurd hid (by simp [idOk])
  case obj fs => exact absurd hid (by simp [idOk])
  all_goals
    rcases hh : tool.handler args with r | e <;>
      simp [handle_message, toolsCallMsg, dispatchMethod, handleRequest,
        toolsCallOutcome, isStrVal, Json.pyGet, Json.pyGetD, Json.lookupRaw,
        Json.hasKey, Json.isObj, List.lookup, h1, hreg, hh, error_response,
        success_response, idOk, Except.map]

/-- C5 (amended): on an uninitialized engine, `tools/list` and `tools/call`
answer the generic internal error -32603 ("Server not initialized"), while
`ping` succeeds without initialization, returning a pong carrying the
current timestamp; after a successful init handshake on the same engine the
init flag is set and the same `tools/list` succeeds, as does `tools/call`
for any registered tool. (Unknown methods answer -32601 regardless of the
init state: see the counterexample.) -/
theorem c5_initialization_gate (st : MCPState) (now : String) (i : Json)
    (h0 : st.initDone = false) (hid : idOk i = true) :
    ((handle_message st now (some (requestMsg i "tools/list"))).2 =
      some ⟨i, none, some ⟨-32603, "Internal error: Server not initialized"⟩⟩) ∧
    (∀ nm : String,
      (handle_message st now (some (toolsCallMsgNoArgs i nm))).2 =
        some ⟨i, none, some ⟨-32603, "Internal error: Server not initialized"⟩⟩) ∧
    ((handle_message st now (some (requestMsg i "ping"))).2 =
      some ⟨i, some (pingResult now), none⟩) ∧
    ((handle_message st now (some (requestMsg i "initialize"))).1.initDone = true) ∧
    ((handle_message st now (some (requestMsg i "initialize"))).2 =
      some ⟨i, some initResultJson, none⟩) ∧
    ((handle_message (handle_message st now (some (requestMsg i "initialize"))).1 now
        (some (requestMsg i "tools/list"))).2 =
      some ⟨i, some (toolsListResult
        (handle_message st now (some (requestMsg i "initialize"))).1), none⟩) ∧
    (∀ (nm : String) (tool : ToolEntry) (args : Json),
      (handle_message st now (some (requestMsg i "initialize"))).1.tools.lookup nm =
          some tool →
      (handle_message (handle_message st now (some (requestMsg i "initialize"))).1 now
          (some (toolsCallMsg i nm args))).2 =
        some ⟨i, some (match tool.handler args with
                       | .ok r => toolCallOk r
                       | .error e => toolCallFailed e), none⟩) := by
  have hinit := hmAux_init st now i hid
  refine ⟨hmAux_toolsList_uninit st now i h0 hid,
    fun nm => hmAux_toolsCall_uninit st now nm i h0 hid,
    hmAux_ping st now i hid, ?_, ?_, ?_, ?_⟩
  · rw [hinit]
  · rw [hinit]
  · rw [hinit]
    exact hmAux_toolsList_init _ now i rfl hid
  · intro nm tool args hreg
    rw [hinit] at hreg ⊢
    exact hmAux_toolsCall_registered _ now nm i tool args rfl hreg hid

/-- C5 counterexample: an unknown method ("foo/bar") on an uninitialized
engine answers -32601 "Method not found", not the -32603 internal error the
claim asserts for every non-init/ping method. -/
theorem c5_counterexample :
    (handle_message mcpStFresh "T" (some (requestMsg (Json.num 1) "foo/bar"))).2 =
      some ⟨Json.num 1, none, some ⟨-32601, "Method not found: foo/bar"⟩⟩ := rfl

/-- An uninitialized engine with one registered echo tool. -/
def echoTool : ToolEntry := ⟨"echo", "echoes its arguments", Json.obj [], fun j => .ok j⟩

/-- An uninitialized engine holding the echo tool. -/
def mcpStEcho : MCPState := ⟨[("echo", echoTool)], false, none⟩

/-- Witness for C5 at a concrete engine with a registered tool. -/
theorem c5_initialization_gate_witness :
    mcpStEcho.initDone = false ∧ idOk (Json.num 4) = true ∧
    (handle_message mcpStEcho "T" (some (requestMsg (Json.num 4) "tools/list"))).2 =
      some ⟨Json.num 4, none, some ⟨-32603, "Internal error: Server not initialized"⟩⟩ ∧
    (handle_message mcpStEcho "T" (some (requestMsg (Json.num 4) "ping"))).2 =
      some ⟨Json.num 4, some (pingResult "T"), none⟩ ∧
    (handle_message (handle_message mcpStEcho "T"
        (some (requestMsg (Json.num 4) "initialize"))).1 "T"
        (some (toolsCallMsg (Json.num 4) "echo" (Json.obj [("q", Json.str "x")])))).2 =
      some ⟨Json.num 4, some (toolCallOk (Json.obj [("q", Json.str "x")])), none⟩ :=
  ⟨rfl, rfl,
    (c5_initialization_gate mcpStEcho "T" (Json.num 4) rfl rfl).1,
    (c5_initialization_gate mcpStEcho "T" (Json.num 4) rfl rfl).2.2.1,
    (c5_initialization_gate mcpStEcho "T" (Json.num 4) rfl rfl).2.2.2.2.2.2
      "echo" echoTool (Json.obj [("q", Json.str "x")]) rfl⟩

/-- Mapping `some` over an error-response build never yields `ok none`. -/
theorem exceptMapSome_ne_ok_none (x : Except String MCPResp) :
    x.map some ≠ Except.ok (none : Option MCPResp) := by
  cases x <;> simp [Except.map]

/-- The init method never falls into the no-response branch. -/
theorem applyInit_ne_noResponse (st : MCPState) (p : Json) :
    (applyInitMethod st p).2 ≠ .noResponse := by
  unfold applyInitMethod
  split <;> simp

/-- `tools/list` never falls into the no-response branch. -/
theorem toolsList_ne_noResponse (st : MCPState) :
    toolsListOutcome st ≠ .noResponse := by
  unfold toolsListOutcome
  split <;> simp

/-- `tools/call` never falls into the no-response branch. -/
theorem toolsCall_ne_noResponse (st : MCPState) (p : Json) :
    toolsCallOutcome st p ≠ .noResponse := by
  unfold toolsCallOutcome
  split
  · simp
  · split
    · simp
    · split <;> try simp
      split <;> try simp
      split <;> simp

/-- The dispatch chain produces the no-response outcome exactly for the
"initialized" confirmation method. -/
theorem dispatch_noResponse_iff (st : MCPState) (now : String) (msg : Json) :
    (dispatchMethod st now msg).2 = .noResponse ↔
      isStrVal (msg.pyGet "method") "initialized" = true := by
  unfold dispatchMethod
  by_cases h1 : isStrVal (msg.pyGet "method") "initialize" = true
  · have hm := (isStrVal_iff _ _).mp h1
    simp [h1, applyInit_ne_noResponse, hm, isStrVal]
  · simp only [h1]
    by_cases h2 : isStrVal (msg.pyGet "method") "initialized" = true
    · simp [h2]
    · simp only [h2]
      by_cases h3 : isStrVal (msg.pyGet "method") "tools/list" = true
      · simp [h3, toolsList_ne_noResponse, h2]
      · simp only [h3]
        by_cases h4 : isStrVal (msg.pyGet "method") "tools/call" = true
        · simp [h4, toolsCall_ne_noResponse, h2]
        · simp only [h4]
          by_cases h5 : isStrVal (msg.pyGet "method") "ping" = true
          · simp [h5, h2]
          · simp [h5, h2]

/-- A request produces no response exactly when its method is the
"initialized" confirmation. -/
theorem handleRequest_ok_none_iff (st : MCPState) (now : String) (msg : Json) :
    (handleRequest st now msg).2 = Except.ok (none : Option MCPResp) ↔
      isStrVal (msg.pyGet "method") "initialized" = true := by
  have hiff := dispatch_noResponse_iff st now msg
  unfold handleRequest
  rcases hd : dispatchMethod st now msg with ⟨st', d⟩
  rw [hd] at hiff
  simp only at hiff
  cases d with
  | result r =>
      rcases hs : success_response (msg.pyGet "id") r with e | resp
      · simp only [hs]
        constructor
        · intro h
          exact absurd h (exceptMapSome_ne_ok_none _)
        · intro h
          exact absurd (hiff.mpr h) (by simp)
      · simp only [hs]
        constructor
        · intro h
          simp at h
        · intro h
          exact absurd (hiff.mpr h) (by simp)
  | noResponse =>
      simp [hiff.mp rfl]
  | notFound s =>
      constructor
      · intro h
        exact absurd h (exceptMapSome_ne_ok_none _)
      · intro h
        exact absurd (hiff.mpr h) (by simp)
  | exn e =>
      constructor
      · intro h
        exact absurd h (exceptMapSome_ne_ok_none _)
      · intro h
        exact absurd (hiff.mpr h) (by simp)

/-- A notification is handled silently unless it is a cancel notification
whose params value is not a dict (the `params.get("id")` AttributeError). -/
theorem handleNotif_ok_iff (msg : Json) :
    (handleNotif msg = .ok ()) ↔
      ¬(isStrVal (msg.pyGet "method") "notifications/cancelled" = true ∧
        (msg.pyGetD "params" (Json.obj [])).isObj = false) := by
  unfold handleNotif
  by_cases h1 : isStrVal (msg.pyGet "method") "notifications/cancelled" = true
  · simp only [h1, if_true]
    by_cases h2 : (msg.pyGetD "params" (Json.obj [])).isObj <;> simp [h2, h1]
  · simp [h1]

/-- C3 (amended): for a well-formed JSON object carrying the correct
protocol tag, `handle_message` returns no response exactly when (a) the
message carries an id but its method is the "initialized" confirmation, or
(b) the message carries no id (a notification) and is not a
`notifications/cancelled` whose params is a non-object (that case answers
an internal-error response through the catch-all). Every other id-carrying
message yields exactly one response. -/
theorem c3_empty_response_iff (st : MCPState) (now : String) (msg : Json)
    (hobj : msg.isObj = true)
    (hver : msg.pyGet "jsonrpc" = some (Json.str "2.0")) :
    ((handle_message st now (some msg)).2 = none ↔
      ((msg.hasKey "id" = true ∧ msg.pyGet "method" = some (Json.str "initialized")) ∨
       (msg.hasKey "id" = false ∧
         ¬(msg.pyGet "method" = some (Json.str "notifications/cancelled") ∧
           (msg.pyGetD "params" (Json.obj [])).isObj = false)))) := by
  have hv : isStrVal (msg.pyGet "jsonrpc") "2.0" = true := (isStrVal_iff _ _).mpr hver
  cases hkey : msg.hasKey "id"
  · simp only [handle_message, hobj, hv, hkey, Bool.not_true, Bool.false_eq_true,
      if_false, if_true, Bool.true_eq_false, false_and, false_or, true_and]
    rcases hn : handleNotif msg with e | u
    · simp only [hn]
      constructor
      · intro h
        simp at h
      · intro h
        have := (handleNotif_ok_iff msg).mpr (by simpa [isStrVal_iff] using h)
        rw [hn] at this
        cases this
    · simp only [hn]
      constructor
      · intro _
        have := (handleNotif_ok_iff msg).mp (by cases u; exact hn)
        simpa [isStrVal_iff] using this
      · intro _
        trivial
  · simp only [handle_message, hobj, hv, hkey, Bool.not_true, Bool.false_eq_true,
      if_false, if_true, Bool.true_eq_false, false_and, or_false, true_and]
    have hreq := handleRequest_ok_none_iff st now msg
    rcases hr : handleRequest st now msg with ⟨st', r⟩
    rw [hr] at hreq
    simp only at hreq
    cases r with
    | ok ro =>
        simp only
        rw [← isStrVal_iff, ← hreq]
        simp
    | error e =>
        simp only
        constructor
        · intro h
          simp [internalErrorResp] at h
        · intro h
          have := hreq.mpr ((isStrVal_iff _ _).mpr h)
          cases this

/-- The client's post-init confirmation sent (as the source routes it) with
an id: a request that yields no response. -/
def ackReqMsg : Json := requestMsg (Json.num 1) "initialized"

/-- C3 counterexample: the "initialized" confirmation carrying an id is a
request by the claim's definition, yet `handle_message` returns the empty
string for it. -/
theorem c3_counterexample :
    ackReqMsg.hasKey "id" = true ∧
    (handle_message mcpStFresh "T" (some ackReqMsg)).2 = none :=
  ⟨rfl, rfl⟩

/-- Witness for C3 at the concrete "initialized" request. -/
theorem c3_empty_response_iff_witness :
    ackReqMsg.isObj = true ∧
    ackReqMsg.pyGet "jsonrpc" = some (Json.str "2.0") ∧
    (((handle_message mcpStFresh "T" (some ackReqMsg)).2 = none) ↔
      ((ackReqMsg.hasKey "id" = true ∧
          ackReqMsg.pyGet "method" = some (Json.str "initialized")) ∨
       (ackReqMsg.hasKey "id" = false ∧
         ¬(ackReqMsg.pyGet "method" = some (Json.str "notifications/cancelled") ∧
           (ackReqMsg.pyGetD "params" (Json.obj [])).isObj = false)))) :=
  ⟨rfl, rfl, c3_empty_response_iff mcpStFresh "T" ackReqMsg rfl rfl⟩
